import Mathlib

/-!
Formal model of the clothing-production forecaster (`app.py`).

The application loads a serialized artifact (a trained regressor, a label
encoder for product names, and the last training year), builds one input row
per known product for a selected month and year, runs the regressor on the
batch, casts the predictions to integers, sorts them descending by quantity
and renders the result.  Everything below is a shallow embedding of that
script: pure Python/pandas/numpy operations become Lean functions, the
Streamlit session effects become explicit outcomes and state.
-/

namespace ProductionApp

/-- Python `calendar.month_name`: a 13-entry sequence whose entry 0 is the
empty string, so that entry `i` is the English name of month number `i`. -/
def month_name : List String :=
  ["", "January", "February", "March", "April", "May", "June", "July",
   "August", "September", "October", "November", "December"]

/-- `app.py` line 51: the dict comprehension
`month_map = ... for index, month in enumerate(calendar.month_name) if month`,
keeping the pairs whose name is non-empty, keyed by name with the enumeration
index as value. -/
def month_map_pairs : List (String × Nat) :=
  (month_name.enum.filter (fun p => p.2 != "")).map (fun p => (p.2, p.1))

/-- Dictionary lookup `month_map[selected_month]`; `none` models a `KeyError`
(the `UnknownMonth` condition). -/
def month_map (name : String) : Option Nat :=
  (month_map_pairs.find? (fun p => p.1 == name)).map (fun p => p.2)

/-- `app.py` line 52: `month_list = list(month_map.keys())`. -/
def month_list : List String :=
  month_map_pairs.map (fun p => p.1)

/-- The sklearn `LabelEncoder` stored in the artifact: `classes_` is the
ordered vocabulary fixed at training time. -/
structure LabelEncoder where
  classes_ : List String
deriving DecidableEq

/-- `LabelEncoder.transform`: each seen label is mapped to its position in
`classes_` (unseen labels are outside the invariant; `indexOf` is only
applied to members of `classes_` in this program). -/
def LabelEncoder.transform (le : LabelEncoder) (xs : List String) : List Nat :=
  xs.map (fun x => le.classes_.indexOf x)

/-- One row of the `input_data` frame: columns `Year`, `Month_Num`,
`Product_ID` in that order. -/
structure Row where
  year : Int
  month_num : Nat
  product_id : Nat
deriving DecidableEq

/-- The artifact bundle unpickled from `production_ai_brain.pkl`: the trained
regressor (modelled as a numeric function of one row), the product encoder
and the last training year. -/
structure Artifact where
  model : Row → ℚ
  encoder : LabelEncoder
  last_year : Int

/-- `model.predict(input_data)`: the regressor is invoked once on the whole
batch and yields one numeric prediction per input row, in row order. -/
def predict (model : Row → ℚ) (rows : List Row) : List ℚ :=
  rows.map model

/-- `app.py` lines 96-100: the `pd.DataFrame` with columns
`Year = [forecast_year] * n`, `Month_Num = [month_num] * n`,
`Product_ID = le.transform(all_products)` where
`all_products = le.classes_`, read back row-wise. -/
def input_data (forecast_year : Int) (month_num : Nat) (le : LabelEncoder) :
    List Row :=
  let all_products := le.classes_
  List.zipWith3 Row.mk
    (List.replicate all_products.length forecast_year)
    (List.replicate all_products.length month_num)
    (le.transform all_products)

/-- numpy `predictions.astype(int)` on a float array: a C-style cast, i.e.
truncation toward zero (floor for non-negative values, ceiling for negative
ones), with no clamping and no rounding to nearest. -/
def astype_int (q : ℚ) : ℤ :=
  if 0 ≤ q then ⌊q⌋ else ⌈q⌉

/-- `app.py` lines 106-109: the `results` frame before sorting, pairing
`Product Name = all_products` with
`Suggested Quantity = predictions.astype(int)`, in encoder-class order. -/
def results_unsorted (a : Artifact) (forecast_year : Int) (month_num : Nat) :
    List (String × Int) :=
  a.encoder.classes_.zip
    ((predict a.model (input_data forecast_year month_num a.encoder)).map astype_int)

/-- Comparison on the `Suggested Quantity` column used by the ascending
argsort underlying `sort_values`. -/
def qty_le (x y : String × Int) : Prop :=
  x.2 ≤ y.2

instance : DecidableRel qty_le :=
  fun x y => inferInstanceAs (Decidable (x.2 ≤ y.2))

instance : IsTotal (String × Int) qty_le :=
  ⟨fun x y => Int.le_total x.2 y.2⟩

instance : IsTrans (String × Int) qty_le :=
  ⟨fun _ _ _ h₁ h₂ => le_trans h₁ h₂⟩

/-- `app.py` line 111:
`results.sort_values(by="Suggested Quantity", ascending=False)`.
pandas (`nargsort`) reverses the values, takes an ascending argsort, and
reverses the resulting indexer; the argsort kernel at this array size is a
stable insertion sort, so the whole is a descending sort that keeps ties in
their original relative order. -/
def sort_values_desc (rows : List (String × Int)) : List (String × Int) :=
  (List.insertionSort qty_le rows.reverse).reverse

/-- The forecast computation run when the button is pressed (`app.py`
lines 90-111): resolve the selected month name, build one input row per
encoder class, predict, cast to integers and sort descending by quantity. -/
def forecast (a : Artifact) (selected_month : String) (forecast_year : Int) :
    Option (List (String × Int)) :=
  (month_map selected_month).map (fun month_num =>
    sort_values_desc (results_unsorted a forecast_year month_num))

/-- `app.py` line 60: `next_month_index = (current_month_index % 12) + 1`,
the 1-12 number of the proposed default month. -/
def next_month_index (current_month_index : Nat) : Nat :=
  current_month_index % 12 + 1

/-- `app.py` line 64: `default_list_index = next_month_index - 1`, the
0-based position handed to the month select box. -/
def default_list_index (current_month_index : Nat) : Nat :=
  next_month_index current_month_index - 1

/-- `MODEL_FILE = "production_ai_brain.pkl"` (`app.py` line 18). -/
def MODEL_FILE : String :=
  "production_ai_brain.pkl"

/-- Outcome of running `load_ai_brain`: either the session is halted after an
error and a warning message (`st.error`, `st.warning`, `st.stop`), or the
unpickled artifact is returned. -/
inductive LoadOutcome where
  | fatal (error warning : String)
  | loaded (a : Artifact)

/-- The `st.error` text of `app.py` line 26 (the file name in quotes). -/
def error_message : String :=
  "🚨 Critical Error: \x27" ++ MODEL_FILE ++ "\x27 not found."

/-- The `st.warning` remediation hint of `app.py` line 27. -/
def warning_message : String :=
  "Please run \x27train_model.py\x27 first to generate the AI brain."

/-- `load_ai_brain` (`app.py` lines 24-29) over an abstract file system
mapping existing paths to their unpickled contents: if the configured path
does not exist the run stops fatally, otherwise `joblib.load` returns the
artifact. -/
def load_ai_brain (fs : String → Option Artifact) : LoadOutcome :=
  match fs MODEL_FILE with
  | none => .fatal error_message warning_message
  | some a => .loaded a

/-- Process-wide state of the `st.cache_resource` memoization: the cached
artifact, if any, and the number of times `joblib.load` has read the disk. -/
structure CacheState where
  cached : Option Artifact
  disk_reads : Nat

/-- Modelled from the spec: `st.cache_resource` (framework code outside this
repository) memoizes `load_ai_brain` for the process lifetime — the first
call executes the body and caches the returned object, every later call
returns the identical cached object without re-reading from disk.  A fatal
body halts the session and caches nothing. -/
def cached_load (fs : String → Option Artifact) (s : CacheState) :
    LoadOutcome × CacheState :=
  match s.cached with
  | some a => (.loaded a, s)
  | none =>
    match load_ai_brain fs with
    | .loaded a => (.loaded a, ⟨some a, s.disk_reads + 1⟩)
    | .fatal e w => (.fatal e w, s)

/-- A sequence of calls to the cached loader within one process lifetime,
returning the outcomes in order and the final cache state. -/
def run_calls (fs : String → Option Artifact) :
    Nat → CacheState → List LoadOutcome × CacheState
  | 0, s => ([], s)
  | n + 1, s =>
    let r := cached_load fs s
    let rest := run_calls fs n r.2
    (r.1 :: rest.1, rest.2)

/-! Helper lemmas. -/

theorem zipWith3_replicate_map {α : Type} (y : Int) (m : Nat) (f : α → Nat) :
    ∀ l : List α,
      List.zipWith3 Row.mk (List.replicate l.length y)
        (List.replicate l.length m) (l.map f) =
        l.map (fun p => Row.mk y m (f p))
  | [] => rfl
  | a :: l => by
    simp only [List.length_cons, List.replicate_succ, List.map_cons,
      List.zipWith3]
    exact congrArg _ (zipWith3_replicate_map y m f l)

theorem input_data_eq (y : Int) (m : Nat) (le : LabelEncoder) :
    input_data y m le =
      le.classes_.map (fun p => Row.mk y m (le.classes_.indexOf p)) :=
  zipWith3_replicate_map y m _ le.classes_

theorem results_unsorted_eq (a : Artifact) (y : Int) (m : Nat) :
    results_unsorted a y m =
      a.encoder.classes_.zip (a.encoder.classes_.map
        (fun p => astype_int (a.model (Row.mk y m (a.encoder.classes_.indexOf p))))) := by
  unfold results_unsorted predict
  rw [input_data_eq, List.map_map, List.map_map]
  rfl

theorem snd_eq_of_mem_zip_map {α β : Type} (g : α → β) :
    ∀ {l : List α} {x : α × β}, x ∈ l.zip (l.map g) → x.2 = g x.1 := by
  intro l
  induction l with
  | nil => intro x h; simp at h
  | cons a l ih =>
    intro x h
    simp only [List.map_cons, List.zip_cons_cons, List.mem_cons] at h
    rcases h with h | h
    · subst h; rfl
    · exact ih h

theorem map_fst_zip_map_self {α β : Type} (g : α → β) (l : List α) :
    (l.zip (l.map g)).map Prod.fst = l :=
  List.map_fst_zip l (l.map g) (by simp)

theorem sort_values_desc_perm (l : List (String × Int)) :
    List.Perm (sort_values_desc l) l :=
  ((List.reverse_perm _).trans (List.perm_insertionSort qty_le l.reverse)).trans
    (List.reverse_perm l)

theorem sort_values_desc_sorted (l : List (String × Int)) :
    (sort_values_desc l).Pairwise (fun x y : String × Int => y.2 ≤ x.2) := by
  unfold sort_values_desc
  rw [List.pairwise_reverse]
  exact List.sorted_insertionSort qty_le l.reverse

theorem filter_self_filter {α : Type} (p : α → Bool) (l : List α) :
    (l.filter p).filter p = l.filter p := by
  rw [List.filter_filter]
  simp

theorem sort_values_desc_filter (l : List (String × Int)) (q : Int) :
    (sort_values_desc l).filter (fun p => p.2 == q) =
      l.filter (fun p => p.2 == q) := by
  have hpair : (l.reverse.filter (fun p => p.2 == q)).Pairwise qty_le := by
    apply List.pairwise_of_forall_mem_list
    intro a ha b hb
    have ha2 : a.2 = q := by simpa using (List.mem_filter.mp ha).2
    have hb2 : b.2 = q := by simpa using (List.mem_filter.mp hb).2
    unfold qty_le
    omega
  have hsub : List.Sublist (l.reverse.filter (fun p => p.2 == q))
      ((List.insertionSort qty_le l.reverse).filter (fun p => p.2 == q)) := by
    have h1 : List.Sublist (l.reverse.filter (fun p => p.2 == q))
        (List.insertionSort qty_le l.reverse) :=
      List.sublist_insertionSort hpair (List.filter_sublist _)
    have h2 := h1.filter (fun p => p.2 == q)
    rwa [filter_self_filter] at h2
  have hperm : List.Perm
      ((List.insertionSort qty_le l.reverse).filter (fun p => p.2 == q))
      (l.reverse.filter (fun p => p.2 == q)) :=
    (List.perm_insertionSort qty_le l.reverse).filter _
  have heq : l.reverse.filter (fun p => p.2 == q) =
      (List.insertionSort qty_le l.reverse).filter (fun p => p.2 == q) :=
    hsub.eq_of_length hperm.length_eq.symm
  unfold sort_values_desc
  rw [List.filter_reverse, ← heq, List.filter_reverse, List.reverse_reverse]

theorem month_map_isSome_of_mem :
    ∀ m ∈ month_list, (month_map m).isSome := by
  decide

theorem map_fst_results_unsorted (a : Artifact) (y : Int) (mn : Nat) :
    (results_unsorted a y mn).map Prod.fst = a.encoder.classes_ := by
  rw [results_unsorted_eq]
  exact map_fst_zip_map_self _ _

theorem length_results_unsorted (a : Artifact) (y : Int) (mn : Nat) :
    (results_unsorted a y mn).length = a.encoder.classes_.length := by
  rw [results_unsorted_eq]
  simp

/-! Claim theorems. -/

/-- C3: the month map derived from `calendar.month_name` resolves each of the
twelve month names to its correct 1-12 numeric code with no off-by-one
error. -/
theorem month_map_no_off_by_one :
    month_map "January" = some 1 ∧ month_map "February" = some 2 ∧
    month_map "March" = some 3 ∧ month_map "April" = some 4 ∧
    month_map "May" = some 5 ∧ month_map "June" = some 6 ∧
    month_map "July" = some 7 ∧ month_map "August" = some 8 ∧
    month_map "September" = some 9 ∧ month_map "October" = some 10 ∧
    month_map "November" = some 11 ∧ month_map "December" = some 12 := by
  decide

/-- C8: the proposed default month is the calendar month following the
current one, computed as (m % 12) + 1: months 1-11 advance by one, and
December (12) wraps to January (month number 1, list index 0, whose entry in
the month list is the name January). -/
theorem default_month_is_next_month (m : Nat) (h1 : 1 ≤ m) (h2 : m ≤ 12) :
    next_month_index m = m % 12 + 1 ∧
    (m < 12 → next_month_index m = m + 1) ∧
    (m = 12 → next_month_index m = 1 ∧ default_list_index m = 0 ∧
      month_list.getD (default_list_index m) "" = "January") := by
  refine ⟨rfl, ?_, ?_⟩
  · intro h
    unfold next_month_index
    omega
  · intro h
    subst h
    decide

/-- Witness for C8 at the wrap-around point, current month December. -/
theorem default_month_is_next_month_witness :
    next_month_index 12 % 12 + 1 = next_month_index 12 % 12 + 1 ∧
    (next_month_index 12 = 1 ∧ default_list_index 12 = 0 ∧
      month_list.getD (default_list_index 12) "" = "January") :=
  ⟨rfl, (default_month_is_next_month 12 (by decide) (by decide)).2.2 rfl⟩

/-- C10: for every current-date month value 1-12, the computed default list
index lies in 0-11, a valid index into the twelve-element month list, so the
default selection never fails. -/
theorem default_list_index_valid (m : Nat) (h1 : 1 ≤ m) (h2 : m ≤ 12) :
    default_list_index m < month_list.length ∧ month_list.length = 12 := by
  have hlen : month_list.length = 12 := by decide
  refine ⟨?_, hlen⟩
  rw [hlen]
  unfold default_list_index next_month_index
  omega

/-- Witness for C10 at current month December. -/
theorem default_list_index_valid_witness :
    default_list_index 12 < month_list.length ∧ month_list.length = 12 :=
  default_list_index_valid 12 (by decide) (by decide)

/-- A concrete artifact used to exercise the theorems: the end-to-end
scenario of the spec, two products and a regressor predicting ten times the
month number for every product. -/
def demo_artifact : Artifact where
  model := fun r => (r.month_num : ℚ) * 10
  encoder := ⟨["T-Shirt", "Jacket"]⟩
  last_year := 2024

/-- The forecast the demo artifact produces for March: both products tie at
30 and keep their encoder order. -/
def demo_result : List (String × Int) :=
  [("T-Shirt", 30), ("Jacket", 30)]

theorem astype_int_thirty : astype_int ((3 : ℚ) * 10) = 30 := by
  unfold astype_int
  rw [if_pos (by norm_num)]
  norm_num

theorem demo_results_unsorted_eq :
    results_unsorted demo_artifact 2025 3 = demo_result := by
  rw [results_unsorted_eq]
  simp [demo_artifact, demo_result, astype_int_thirty]

theorem demo_forecast_eq :
    forecast demo_artifact "March" 2025 = some demo_result := by
  have hmm : month_map "March" = some 3 := by decide
  simp only [forecast, hmm, Option.map_some', demo_results_unsorted_eq]
  decide

/-- C1: for every month name offered by the selector and every year, the
forecast succeeds and covers the encoder's full class vocabulary: its
product-name column is a permutation of the encoder classes, and its length
equals the number of encoder classes regardless of the selected month. -/
theorem forecast_covers_all_products (a : Artifact) (m : String) (y : Int)
    (hm : m ∈ month_list) :
    ∃ r, forecast a m y = some r ∧
      List.Perm (r.map Prod.fst) a.encoder.classes_ ∧
      r.length = a.encoder.classes_.length := by
  obtain ⟨mn, hmn⟩ := Option.isSome_iff_exists.mp (month_map_isSome_of_mem m hm)
  refine ⟨sort_values_desc (results_unsorted a y mn), by simp [forecast, hmn], ?_, ?_⟩
  · have h2 := (sort_values_desc_perm (results_unsorted a y mn)).map Prod.fst
    rw [map_fst_results_unsorted] at h2
    exact h2
  · rw [(sort_values_desc_perm (results_unsorted a y mn)).length_eq,
      length_results_unsorted]

/-- Witness for C1: the demo artifact, month March, year 2025. -/
theorem forecast_covers_all_products_witness :
    ∃ r, forecast demo_artifact "March" 2025 = some r ∧
      List.Perm (r.map Prod.fst) demo_artifact.encoder.classes_ ∧
      r.length = demo_artifact.encoder.classes_.length :=
  forecast_covers_all_products demo_artifact "March" 2025 (by decide)

/-- C2: every forecast result is sorted descending by quantity — each
adjacent pair satisfies quantity at i ≥ quantity at i+1 — and for any fixed
quantity the pairs carrying it appear in their original encoder-class order
(the sort is stable on ties). -/
theorem forecast_sorted_desc_stable (a : Artifact) (m : String) (y : Int)
    (mn : Nat) (r : List (String × Int))
    (hm : month_map m = some mn) (hr : forecast a m y = some r) :
    (∀ i (h : i + 1 < r.length),
      (r.get ⟨i + 1, h⟩).2 ≤ (r.get ⟨i, Nat.lt_of_succ_lt h⟩).2) ∧
    ∀ q : Int, r.filter (fun p => p.2 == q) =
      (results_unsorted a y mn).filter (fun p => p.2 == q) := by
  have hr2 : sort_values_desc (results_unsorted a y mn) = r := by
    simpa [forecast, hm] using hr
  subst hr2
  constructor
  · intro i h
    have hp := sort_values_desc_sorted (results_unsorted a y mn)
    rw [List.pairwise_iff_getElem] at hp
    have := hp i (i + 1) (Nat.lt_of_succ_lt h) h (Nat.lt_succ_self i)
    simpa [List.get_eq_getElem] using this
  · intro q
    exact sort_values_desc_filter _ q

/-- Witness for C2: the demo artifact in March, whose two products tie at
quantity 30 and are reported in encoder order. -/
theorem forecast_sorted_desc_stable_witness :
    (∀ i (h : i + 1 < demo_result.length),
      (demo_result.get ⟨i + 1, h⟩).2 ≤
        (demo_result.get ⟨i, Nat.lt_of_succ_lt h⟩).2) ∧
    ∀ q : Int, demo_result.filter (fun p => p.2 == q) =
      (results_unsorted demo_artifact 2025 3).filter (fun p => p.2 == q) :=
  forecast_sorted_desc_stable demo_artifact "March" 2025 3 demo_result
    (by decide) demo_forecast_eq

theorem astype_int_pos_example : astype_int (13 / 5 : ℚ) = 2 := by
  unfold astype_int
  rw [if_pos (by norm_num)]
  norm_num

theorem astype_int_neg_example : astype_int (-13 / 5 : ℚ) = -2 := by
  unfold astype_int
  rw [if_neg (by norm_num), Int.ceil_eq_iff]
  norm_num

theorem astype_int_exact_example : astype_int (-4 : ℚ) = -4 := by
  unfold astype_int
  rw [if_neg (by norm_num), Int.ceil_eq_iff]
  norm_num

/-- C4: each reported quantity is the direct integer cast — truncation
toward zero — of the regressor prediction for that product's input row; the
cast is not round-to-nearest (13/5 truncates to 2) and negative predictions
are not clamped (-13/5 truncates to -2, an exact -4 stays -4). -/
theorem quantities_are_truncated_predictions (a : Artifact) (m : String)
    (y : Int) (mn : Nat) (r : List (String × Int))
    (hm : month_map m = some mn) (hr : forecast a m y = some r) :
    (∀ p ∈ r,
      p.2 = astype_int (a.model (Row.mk y mn (a.encoder.classes_.indexOf p.1)))) ∧
    astype_int (13 / 5 : ℚ) = 2 ∧ astype_int (-13 / 5 : ℚ) = -2 ∧
    astype_int (-4 : ℚ) = -4 := by
  have hr2 : sort_values_desc (results_unsorted a y mn) = r := by
    simpa [forecast, hm] using hr
  subst hr2
  refine ⟨?_, astype_int_pos_example, astype_int_neg_example, astype_int_exact_example⟩
  intro p hp
  have hmem : p ∈ results_unsorted a y mn :=
    (sort_values_desc_perm (results_unsorted a y mn)).mem_iff.mp hp
  rw [results_unsorted_eq] at hmem
  exact snd_eq_of_mem_zip_map _ hmem

/-- Witness for C4: the demo artifact in March. -/
theorem quantities_are_truncated_predictions_witness :
    (∀ p ∈ demo_result,
      p.2 = astype_int (demo_artifact.model
        (Row.mk 2025 3 (demo_artifact.encoder.classes_.indexOf p.1)))) ∧
    astype_int (13 / 5 : ℚ) = 2 ∧ astype_int (-13 / 5 : ℚ) = -2 ∧
    astype_int (-4 : ℚ) = -4 :=
  quantities_are_truncated_predictions demo_artifact "March" 2025 3 demo_result
    (by decide) demo_forecast_eq

/-- C5: the input table passed to the regressor has exactly one row per
known product, the rows follow the encoder's class order, and each row
carries the numeric year, the resolved month number and the encoded product
identity. -/
theorem input_data_rows (y : Int) (mn : Nat) (le : LabelEncoder) :
    input_data y mn le =
      le.classes_.map (fun p => Row.mk y mn (le.classes_.indexOf p)) ∧
    (input_data y mn le).length = le.classes_.length :=
  ⟨input_data_eq y mn le, by rw [input_data_eq]; simp⟩

/-- C6: if the configured artifact path does not exist at load time, the
load fails fatally: the error output names the missing file, the warning
carries the remediation hint, the session stops, and no artifact object is
returned. -/
theorem load_fails_when_missing (fs : String → Option Artifact)
    (h : fs MODEL_FILE = none) :
    load_ai_brain fs = LoadOutcome.fatal error_message warning_message ∧
    (∃ s t, error_message = s ++ MODEL_FILE ++ t) ∧
    ∀ a, load_ai_brain fs ≠ LoadOutcome.loaded a := by
  refine ⟨?_, ⟨"🚨 Critical Error: \x27", "\x27 not found.", rfl⟩, ?_⟩
  · unfold load_ai_brain
    rw [h]
  · intro a hcontra
    unfold load_ai_brain at hcontra
    rw [h] at hcontra
    exact LoadOutcome.noConfusion hcontra

/-- Witness for C6: a file system in which no path exists. -/
theorem load_fails_when_missing_witness :
    load_ai_brain (fun _ => none) =
      LoadOutcome.fatal error_message warning_message ∧
    (∃ s t, error_message = s ++ MODEL_FILE ++ t) ∧
    ∀ a, load_ai_brain (fun _ => none) ≠ LoadOutcome.loaded a :=
  load_fails_when_missing (fun _ => none) rfl

/-- C7: the forecast is deterministic — it depends only on the regressor's
values on the constructed rows and on the encoder, so repeating a call with
the identical month and year against the same loaded artifact (or any
artifact with a pointwise-equal regressor and equal encoder) yields an
identical result. -/
theorem forecast_deterministic (a₁ a₂ : Artifact) (m : String) (y : Int)
    (henc : a₁.encoder = a₂.encoder)
    (hmodel : ∀ row, a₁.model row = a₂.model row) :
    forecast a₁ m y = forecast a₂ m y := by
  have h1 : a₁.model = a₂.model := funext hmodel
  unfold forecast results_unsorted predict input_data
  rw [h1, henc]

/-- Witness for C7: two calls against the demo artifact. -/
theorem forecast_deterministic_witness :
    forecast demo_artifact "March" 2025 = forecast demo_artifact "March" 2025 :=
  forecast_deterministic demo_artifact demo_artifact "March" 2025 rfl
    (fun _ => rfl)

theorem run_calls_cached (fs : String → Option Artifact) (a : Artifact) :
    ∀ (n : Nat) (k : Nat),
      run_calls fs n ⟨some a, k⟩ =
        (List.replicate n (LoadOutcome.loaded a), ⟨some a, k⟩)
  | 0, _ => rfl
  | n + 1, k => by
    simp only [run_calls, cached_load, run_calls_cached fs a n k,
      List.replicate_succ]

theorem run_calls_fatal (fs : String → Option Artifact) (e w : String)
    (hload : load_ai_brain fs = LoadOutcome.fatal e w) :
    ∀ (n : Nat) (k : Nat),
      run_calls fs n ⟨none, k⟩ =
        (List.replicate n (LoadOutcome.fatal e w), ⟨none, k⟩)
  | 0, _ => rfl
  | n + 1, k => by
    simp only [run_calls, cached_load, hload,
      run_calls_fatal fs e w hload n k, List.replicate_succ]

/-- C9: the artifact load is memoized process-wide — over any number of
calls in one process the disk is read at most once, and every call returns
the identical outcome, the object produced by the single underlying load. -/
theorem cached_load_memoized (fs : String → Option Artifact) (n : Nat) :
    (run_calls fs n ⟨none, 0⟩).1 = List.replicate n (load_ai_brain fs) ∧
    (run_calls fs n ⟨none, 0⟩).2.disk_reads ≤ 1 := by
  cases hload : load_ai_brain fs with
  | fatal e w =>
    rw [run_calls_fatal fs e w hload n 0]
    exact ⟨rfl, Nat.zero_le 1⟩
  | loaded a =>
    cases n with
    | zero => exact ⟨rfl, Nat.zero_le 1⟩
    | succ n =>
      have hfirst : cached_load fs ⟨none, 0⟩ = (LoadOutcome.loaded a, ⟨some a, 1⟩) := by
        simp only [cached_load, hload]
      constructor
      · simp only [run_calls, hfirst, run_calls_cached fs a n 1,
          List.replicate_succ]
      · simp only [run_calls, hfirst, run_calls_cached fs a n 1]
        omega

end ProductionApp
